import Mathlib

/-!
# Verification of the timelapse-camera repository

Shallow embedding of the three capture front-ends of the repository
(`timelapse_camera.py`, `timelapse_gui.py`, `test_timelapse.py`) and of the
video-assembly step, with theorems settling the frozen claims about frame
numbering, session termination, cancellation, video assembly, file naming,
error handling and image-quality parameters.

Conventions:
* Python machine state is passed explicitly; the capture loops are modelled
  with fuel (the fuel-exhausted case is reported separately from genuine
  loop exits, so that exit reasons are meaningful).
* Fallible operations (camera read, image write) are driven by outcome
  oracles: one abstract outcome per loop iteration.
* Strings model Python strings at the level of code points; `strEndsWith`
  embeds Python's `str.endswith`.
-/

namespace Timelapse

/-- The configuration record of `timelapse_camera.py` (`load_default_config`,
lines 49-71).  The JSON keys map to fields of the same name, except that the
key `filename_prefix` is modelled by the field `filename_stem`, and the
nested `resolution` object is flattened into `res_width`/`res_height`.
Numeric scalars are modelled as `Nat`/`Int` (the defaults are integers). -/
structure Config where
  camera_index : Nat
  interval_seconds : Nat
  duration_minutes : Nat
  res_width : Nat
  res_height : Nat
  output_dir : String
  image_format : String
  image_quality : Nat
  filename_stem : String
  auto_exposure : Bool
  brightness : Int
  contrast : Int
  saturation : Int
  create_video : Bool
  video_fps : Nat
  video_format : String
  cleanup_images : Bool
  preview_window : Bool
  deriving DecidableEq, Repr

/-- `TimelapseCamera.load_default_config` (timelapse_camera.py lines 49-71). -/
def load_default_config : Config where
  camera_index := 0
  interval_seconds := 5
  duration_minutes := 60
  res_width := 1920
  res_height := 1080
  output_dir := "./timelapse_output"
  image_format := "jpg"
  image_quality := 95
  filename_stem := "timelapse"
  auto_exposure := true
  brightness := 0
  contrast := 0
  saturation := 0
  create_video := true
  video_fps := 30
  video_format := "mp4"
  cleanup_images := false
  preview_window := true

/-- Python's format specifier `{:0wd}` for a nonnegative integer: the decimal
digits, zero-padded on the left to a minimum width of `w` characters. -/
def pad (w n : Nat) : String :=
  let s := toString n
  String.mk (List.replicate (w - s.length) '0') ++ s

/-- A wall-clock date-time, as produced by `datetime.now()`. -/
structure Timestamp where
  year : Nat
  month : Nat
  day : Nat
  hour : Nat
  minute : Nat
  second : Nat
  deriving DecidableEq, Repr

/-- `datetime.now().strftime("%Y%m%d_%H%M%S")` (timelapse_camera.py line 147,
timelapse_gui.py line 897, test_timelapse.py line 61). -/
def strftime_Ymd_HMS (t : Timestamp) : String :=
  pad 4 t.year ++ pad 2 t.month ++ pad 2 t.day ++ "_" ++
    pad 2 t.hour ++ pad 2 t.minute ++ pad 2 t.second

/-- `TimelapseCamera.create_output_directory` (timelapse_camera.py lines
147-148): `os.path.join(output_dir, f"{filename_...}_{timestamp}")`. -/
def create_output_directory (cfg : Config) (t : Timestamp) : String :=
  cfg.output_dir ++ "/" ++ (cfg.filename_stem ++ "_" ++ strftime_Ymd_HMS t)

/-- The image filename built in `TimelapseCamera.capture_frame`
(timelapse_camera.py line 172): `f"{...}_{frame_number:06d}.{image_format}"`. -/
def cli_frame_filename (cfg : Config) (frame_number : Nat) : String :=
  cfg.filename_stem ++ "_" ++ pad 6 frame_number ++ "." ++ cfg.image_format

/-- The output directory built in `TimelapseGUI._recording_worker`
(timelapse_gui.py lines 897-898). -/
def gui_output_directory (cfg : Config) (t : Timestamp) : String :=
  cfg.output_dir ++ "/" ++ (cfg.filename_stem ++ "_" ++ strftime_Ymd_HMS t)

/-- The image filename built in `TimelapseGUI._recording_worker`
(timelapse_gui.py line 946): `f"{...}_{self.frame_count:06d}.{image_format}"`. -/
def gui_frame_filename (cfg : Config) (frame_number : Nat) : String :=
  cfg.filename_stem ++ "_" ++ pad 6 frame_number ++ "." ++ cfg.image_format

/-- The output directory of `test_short_timelapse` (test_timelapse.py line 62):
`f"./test_output/timelapse_test_{timestamp}"`. -/
def test_output_directory (t : Timestamp) : String :=
  "./test_output/timelapse_test_" ++ strftime_Ymd_HMS t

/-- The image filename of `test_short_timelapse` (test_timelapse.py line 76):
`f"frame_{i+1:03d}.jpg"` for loop index `i`. -/
def test_frame_filename (i : Nat) : String :=
  "frame_" ++ pad 3 (i + 1) ++ ".jpg"

/-- The PNG compression parameter computed in `TimelapseCamera.capture_frame`
(timelapse_camera.py line 179) and in `TimelapseGUI._recording_worker`
(timelapse_gui.py line 953): `9 - (image_quality // 10)`, over Python
integers.  For nonnegative `image_quality`, Python floor division agrees with
`Nat` division. -/
def png_compression (image_quality : Nat) : Int :=
  (9 : Int) - (image_quality / 10 : Nat)

/-- Python `str.endswith(suffix)`, at the level of code points. -/
def strEndsWith (s suffix : String) : Bool :=
  suffix.data.isSuffixOf s.data

/-- Python `str.startswith(pre)`, at the level of code points. -/
def strStartsWith (s pre : String) : Bool :=
  pre.data.isPrefixOf s.data

/-! ## Capture-session model -/

/-- The result of one camera-read / image-write attempt in a loop iteration:
`saved` = frame read and image written successfully, and no later statement
of the iteration raised; `savedThenExn` = `cv2.imwrite` succeeded (the file
is on disk) but a statement after it raised — in the command-line
`capture_frame` the `try` block (timelapse_camera.py lines 165-214) spans
the post-write `print`/`cv2.resize`/`cv2.imshow`/`cv2.waitKey` calls (lines
186-205), any of which can raise (e.g. `cv2.imshow` on an OpenCV build
without GUI support), so the handler returns `False` with the file already
saved; `readFail` = `camera.read()` returned a false flag; `writeFail` =
`cv2.imwrite` returned `False`; `exn` = an exception was raised before any
file was written.  The GUI worker has no `savedThenExn` path of its own:
its loop body (timelapse_gui.py lines 941-971) increments `frame_count`
immediately after the successful write (line 961), so an exception there is
an `exn` exit with the save already counted. -/
inductive CapOutcome
  | saved
  | savedThenExn
  | readFail
  | writeFail
  | exn
  deriving DecidableEq, Repr

/-- Whether the iteration's `cv2.imwrite` put an image file on disk. -/
def CapOutcome.fileWritten : CapOutcome → Bool
  | .saved => true
  | .savedThenExn => true
  | _ => false

/-- The external events of one loop iteration: the capture outcome, whether
ESC was pressed in the preview window during this iteration (command-line
front-end only), and whether a signal handler / GUI stop action set
`is_recording` to `False` during this iteration. -/
structure IterInput where
  outcome : CapOutcome
  escKey : Bool
  extCancel : Bool
  deriving DecidableEq, Repr

/-- The mutable per-session state shared by both capture loops:
`is_recording`, `frame_count`, plus the bookkeeping list `saved_frames` of
the frame numbers of the image files actually written to disk, in write
order (including writes whose iteration later raised), and `iter`, the
ordinal of the next loop pass (not Python state; it indexes the input and
clock oracles). -/
structure SessionState where
  is_recording : Bool
  frame_count : Nat
  saved_frames : List Nat
  iter : Nat
  deriving DecidableEq, Repr

/-- The state right after recording starts: `is_recording = True`,
`frame_count = 0` (timelapse_camera.py lines 288-289, timelapse_gui.py lines
913-914). -/
def initialSessionState : SessionState where
  is_recording := true
  frame_count := 0
  saved_frames := []
  iter := 0

/-- Why a capture loop stopped.  `cancelled` = the `is_recording` flag was
found `False`; `timeLimit` = the clock reached `end_time`; `frameLimit` =
a fixed-count `for` loop exhausted its range; `errored` = an exception
escaped the loop body. -/
inductive ExitReason
  | cancelled
  | timeLimit
  | frameLimit
  | errored
  deriving DecidableEq, Repr

/-- `TimelapseCamera.capture_frame` (timelapse_camera.py lines 154-214),
abstracted over the camera/filesystem outcome.  The saved file is named with
the `frame_number` argument, which the caller passes as the current
`frame_count`; the write at line 184 is recorded in `saved_frames` whenever
it succeeded (`fileWritten` outcomes).  The function returns `true` only
when it also reached `return True` at line 207: on `savedThenExn` the `try`
block's post-write code raised, the handler at lines 212-214 printed a
message and the function returns `false` although the file is on disk.
Read failures, write failures and pre-write exceptions likewise return
`false`, with nothing written.  On a fully successful capture with the
preview window on, an ESC key press sets `is_recording := False` (lines
202-205). -/
def capture_frame (cfg : Config) (inp : IterInput) (s : SessionState) :
    Bool × SessionState :=
  match inp.outcome with
  | .saved =>
      let s1 := { s with saved_frames := s.saved_frames ++ [s.frame_count] }
      (true,
        if cfg.preview_window && inp.escKey then { s1 with is_recording := false }
        else s1)
  | .savedThenExn =>
      (false, { s with saved_frames := s.saved_frames ++ [s.frame_count] })
  | _ => (false, s)

/-- One pass of the `while` body in `TimelapseCamera.start_recording`
(timelapse_camera.py lines 306-312): call `capture_frame` with the current
`frame_count` (so the saved file, if any, carries number `s.frame_count`),
and increment `frame_count` exactly when `capture_frame` *returned* `True` —
which on a `savedThenExn` outcome it does not, although the file was
written, so the next save reuses the number.  A `SIGINT`/`SIGTERM` arriving
during the iteration is handled by `signal_handler` (lines 343-352), which
clears `is_recording` before the next loop check. -/
def cli_iteration (cfg : Config) (inp : IterInput) (s : SessionState) :
    SessionState :=
  let r := capture_frame cfg inp s
  let s1 := if r.1 then { r.2 with frame_count := r.2.frame_count + 1 }
    else r.2
  let s2 := if inp.extCancel then { s1 with is_recording := false } else s1
  { s2 with iter := s2.iter + 1 }

/-- The capture loop of `TimelapseCamera.start_recording` (timelapse_camera.py
lines 306-312): `while self.is_recording and datetime.now() < end_time`.
`now i` is the value of `datetime.now()` (in abstract clock units) at the
`i`-th loop check and `end_time` the bound computed at line 304.  The loop is
fuel-recursive; a `none` reason means the fuel ran out with the loop still
running, so the loop did not actually exit. -/
def start_recording_loop (cfg : Config) (inputs : Nat → IterInput)
    (now : Nat → Nat) (end_time : Nat) :
    Nat → SessionState → SessionState × Option ExitReason
  | 0, s => (s, none)
  | fuel + 1, s =>
    if s.is_recording = false then (s, some .cancelled)
    else if end_time ≤ now s.iter then (s, some .timeLimit)
    else
      start_recording_loop cfg inputs now end_time fuel
        (cli_iteration cfg (inputs s.iter) s)

/-- `TimelapseCamera.start_recording` (timelapse_camera.py lines 275-327):
initialize the camera (`camOk`; on failure the function returns with no
session), create the output directory, save the config (`save_config`
catches its own exceptions, so its outcome cannot stop the session), run the
capture loop, and invoke `create_video` exactly when
`self.config["create_video"] and self.frame_count > 0` (line 317).  The
result carries the final state, the loop exit reason, and whether the video
step was invoked. -/
def start_recording (cfg : Config) (camOk : Bool) (inputs : Nat → IterInput)
    (now : Nat → Nat) (end_time : Nat) (fuel : Nat) :
    Option (SessionState × Option ExitReason × Bool) :=
  if camOk = false then none
  else
    match start_recording_loop cfg inputs now end_time fuel initialSessionState with
    | (s, some reason) =>
        some (s, some reason, cfg.create_video && decide (0 < s.frame_count))
    | (s, none) => some (s, none, false)

/-- One pass of the `while` body in `TimelapseGUI._recording_worker`
(timelapse_gui.py lines 941-971): read a frame and write the image named
with the current `frame_count`; a read failure or a write failure is logged
and the iteration simply ends (no per-iteration exception handler exists, so
a raised exception escapes the loop: result `none`).  `frame_count` is
incremented exactly when `cv2.imwrite` returned success (line 961).  A GUI
stop action or the timer thread clearing `is_recording` during the iteration
is visible at the next loop check.  The GUI cannot produce the CLI-only
`savedThenExn` outcome (it has no handler returning `False` after a write;
an exception is its `exn` exit), so that outcome, should a shared input
stream supply it, is treated as a failed save to keep the function total. -/
def gui_iteration (inp : IterInput) (s : SessionState) : Option SessionState :=
  match inp.outcome with
  | .exn => none
  | .saved =>
      let s1 := { s with frame_count := s.frame_count + 1,
                         saved_frames := s.saved_frames ++ [s.frame_count] }
      let s2 := if inp.extCancel then { s1 with is_recording := false } else s1
      some { s2 with iter := s2.iter + 1 }
  | _ =>
      let s2 := if inp.extCancel then { s with is_recording := false } else s
      some { s2 with iter := s2.iter + 1 }

/-- The time-limit test of the GUI loop condition (timelapse_gui.py line 941):
`end_time is None or datetime.now() < end_time`, negated. -/
def timeUp : Option Nat → Nat → Bool
  | none, _ => false
  | some t, clock => decide (t ≤ clock)

/-- The capture loop of `TimelapseGUI._recording_worker` (timelapse_gui.py
lines 941-971): `while self.is_recording and (end_time is None or
datetime.now() < end_time)`.  An exception raised inside the body escapes to
the worker-level handler (line 979), which logs it; the loop exits with
reason `errored`. -/
def recording_worker_loop (inputs : Nat → IterInput) (now : Nat → Nat)
    (end_time : Option Nat) :
    Nat → SessionState → SessionState × Option ExitReason
  | 0, s => (s, none)
  | fuel + 1, s =>
    if s.is_recording = false then (s, some .cancelled)
    else if timeUp end_time (now s.iter) then (s, some .timeLimit)
    else
      match gui_iteration (inputs s.iter) s with
      | none => (s, some .errored)
      | some s1 => recording_worker_loop inputs now end_time fuel s1

/-- `TimelapseGUI._recording_worker` (timelapse_gui.py lines 874-995): open a
dedicated camera (`camOk`; on failure the worker returns), set its
properties, create the output directory, save the configuration (lines
907-910, with no handler of its own: `configSaveOk = false` raises into the
worker-level handler before any frame is captured), run the capture loop,
and call `_create_video` exactly when `create_video and frame_count > 0`
(lines 976-977) — which an `errored` exit skips, since control jumped to the
handler. -/
def recording_worker (cfg : Config) (camOk configSaveOk : Bool)
    (inputs : Nat → IterInput) (now : Nat → Nat) (end_time : Option Nat)
    (fuel : Nat) : Option (SessionState × Option ExitReason × Bool) :=
  if camOk = false then none
  else if configSaveOk = false then some (initialSessionState, some .errored, false)
  else
    match recording_worker_loop inputs now end_time fuel initialSessionState with
    | (s, some ExitReason.errored) => some (s, some .errored, false)
    | (s, some reason) =>
        some (s, some reason, cfg.create_video && decide (0 < s.frame_count))
    | (s, none) => some (s, none, false)

/-- The capture loop of `test_short_timelapse` (test_timelapse.py lines
73-91): `for i in range(total_frames)`, reading a frame and writing
`frame_{i+1:03d}.jpg` when both succeed; failures are printed and skipped.
The recursion consumes the remaining range; the only way the loop ends is
exhausting it, i.e. the frame-count limit. -/
def test_loop (readOk writeOk : Nat → Bool) :
    Nat → Nat → List String → List String × ExitReason
  | 0, _, acc => (acc, .frameLimit)
  | remaining + 1, i, acc =>
      test_loop readOk writeOk remaining (i + 1)
        (if readOk i && writeOk i then acc ++ [test_frame_filename i] else acc)

/-- `test_short_timelapse` (test_timelapse.py lines 49-97): run the fixed
count loop from index 0 with no files saved yet. -/
def test_short_timelapse (readOk writeOk : Nat → Bool) (total_frames : Nat) :
    List String × ExitReason :=
  test_loop readOk writeOk total_frames 0 []

/-! ## Abstract operation traces of the three front-ends -/

/-- The abstract camera/file operations a front-end performs. -/
inductive CamOp
  | openDevice
  | setProp (name : String)
  | readFrame
  | writeImage
  | sleep
  | encodeVideo
  deriving DecidableEq, Repr

/-- Whether an operation is a camera-property assignment. -/
def CamOp.isSetProp : CamOp → Bool
  | .setProp _ => true
  | _ => false

/-- The camera-property assignments of `TimelapseCamera.initialize_camera`
(timelapse_camera.py lines 117-131): the resolution is always set;
`CAP_PROP_AUTO_EXPOSURE` only when `auto_exposure` is off; brightness,
contrast and saturation only when the configured adjustment is nonzero. -/
def init_camera_props (cfg : Config) : List CamOp :=
  [.setProp "frame_width", .setProp "frame_height"]
    ++ (if cfg.auto_exposure then [] else [.setProp "auto_exposure"])
    ++ (if cfg.brightness ≠ 0 then [.setProp "brightness"] else [])
    ++ (if cfg.contrast ≠ 0 then [.setProp "contrast"] else [])
    ++ (if cfg.saturation ≠ 0 then [.setProp "saturation"] else [])

/-- The camera-property assignments of `TimelapseGUI._recording_worker`
(timelapse_gui.py lines 886-894): resolution always, exposure conditionally,
brightness/contrast/saturation unconditionally. -/
def gui_camera_props (cfg : Config) : List CamOp :=
  [.setProp "frame_width", .setProp "frame_height"]
    ++ (if cfg.auto_exposure then [] else [.setProp "auto_exposure"])
    ++ [.setProp "brightness", .setProp "contrast", .setProp "saturation"]

/-- The operations of one successful capture iteration: read a frame, write
it to an image file, sleep for the configured interval. -/
def iterOps : List CamOp := [.readFrame, .writeImage, .sleep]

/-- The abstract operation trace of the command-line front-end
(`initialize_camera` then `start_recording`, timelapse_camera.py lines
102-318) over a run of `n` successful capture iterations: the video step
runs exactly when `create_video` is on and a frame was captured. -/
def cli_program (cfg : Config) (n : Nat) : List CamOp :=
  .openDevice :: (init_camera_props cfg
    ++ (List.range n).flatMap (fun _ => iterOps)
    ++ (if cfg.create_video && decide (0 < n) then [.encodeVideo] else []))

/-- The abstract operation trace of the GUI front-end
(`TimelapseGUI._recording_worker`, timelapse_gui.py lines 874-977) over a
run of `n` successful capture iterations. -/
def gui_program (cfg : Config) (n : Nat) : List CamOp :=
  .openDevice :: (gui_camera_props cfg
    ++ (List.range n).flatMap (fun _ => iterOps)
    ++ (if cfg.create_video && decide (0 < n) then [.encodeVideo] else []))

/-- The abstract operation trace of `test_short_timelapse` (test_timelapse.py
lines 49-97) over its `n = total_frames` iterations: open the device, then
for each `i < n` read and write, sleeping only between frames (line 89:
`if i < total_frames - 1`); no camera property is set and no video encoded. -/
def test_program (n : Nat) : List CamOp :=
  .openDevice :: (List.range n).flatMap
    (fun i => [.readFrame, .writeImage] ++ (if i < n - 1 then [.sleep] else []))

/-- Modelled from the spec: section 2's shared capture algorithm
`open device → set properties → loop{read frame, write file, sleep} →
optionally encode frames into a video`, where the properties set are camera
property assignments including the resolution. -/
def followsSpecAlgorithm (prog : List CamOp) : Prop :=
  ∃ (props : List CamOp) (n : Nat) (encode : Bool),
    prog = .openDevice :: (props
        ++ (List.range n).flatMap (fun _ => iterOps)
        ++ (if encode then [.encodeVideo] else [])) ∧
    props ≠ [] ∧
    (∀ op ∈ props, op.isSetProp = true) ∧
    CamOp.setProp "frame_width" ∈ props ∧ CamOp.setProp "frame_height" ∈ props

/-! ## Video assembly -/

/-- The outcome of a `create_video` call: the frames written into the video
writer in order, whether the exception handler logged a failure, and the
resulting contents of the output directory. -/
structure VideoResult where
  written : List String
  errorLogged : Bool
  finalListing : List String
  deriving DecidableEq, Repr

/-- The frame-writing loop of `create_video` (timelapse_camera.py lines
253-256, timelapse_gui.py lines 1231-1234): write each file of the sorted
enumeration, in order, into the single video writer.  `writeOk f` is whether
reading file `f` back and writing it into the video succeeded; a failure
raises, aborting the whole `try` block, so nothing after the failing frame
is processed and no frame is retried.  Returns the frames written and
whether an exception occurred. -/
def write_frames (writeOk : String → Bool) : List String → List String × Bool
  | [] => ([], false)
  | f :: fs =>
      if writeOk f then
        let r := write_frames writeOk fs
        (f :: r.1, r.2)
      else ([], true)

/-- The enumeration step shared by `TimelapseCamera.create_video`
(timelapse_camera.py lines 227-228) and `TimelapseGUI._create_video`
(timelapse_gui.py lines 1207-1208); the two functions differ only in the
video filename choice and UI calls, and their shared body follows as
`create_video_core`.  `listing` is `os.listdir(output_dir)`.  The image
files are the listing entries ending in `"." + image_format`, sorted
(Python `sorted`, i.e. the lexicographic code-point order); if there are
none the function logs and returns.  Reading the first enumerated image for
its dimensions (timelapse_camera.py lines 235-236 / timelapse_gui.py lines
1216-1217) happens *before* the `VideoWriter` is constructed: if that read
fails, the exception reaches the handler with no video file created; once
the writer exists, `video_filename` is in the directory, and a later frame
failure leaves the partial file there.  On an exception the handler (lines
272-273 / lines 1264-1269) logs the error and returns, skipping the
cleanup; on success with `cleanup_images` set, exactly the enumerated files
are removed (lines 266-269 / 1257-1262). -/
def image_file_enumeration (image_format : String) (listing : List String) :
    List String :=
  (listing.filter (fun f => strEndsWith f ("." ++ image_format))).mergeSort
    (fun a b => a ≤ b)

/-- See the comment above `image_file_enumeration`: the shared body of the
two `create_video` functions, over the enumeration, abstracted on the video
filename (the only difference between them).  `writeOk f` covers both
reading `f` back and writing it into the video, so a failing first file
models the size read at lines 235-236 / 1216-1217 raising before the writer
exists. -/
def create_video_core (image_format video_filename : String) (cleanup : Bool)
    (listing : List String) (writeOk : String → Bool) : VideoResult :=
  match image_file_enumeration image_format listing with
  | [] => { written := [], errorLogged := false, finalListing := listing }
  | first :: rest =>
    if writeOk first = false then
      { written := [], errorLogged := true, finalListing := listing }
    else
      match write_frames writeOk (first :: rest) with
      | (written, raised) =>
        if raised = true then
          { written := written, errorLogged := true,
            finalListing := listing ++ [video_filename] }
        else
          { written := written, errorLogged := false,
            finalListing :=
              (if cleanup then listing.filter (fun f => f ∉ first :: rest)
                else listing) ++ [video_filename] }

/-- The video filename chosen by `TimelapseCamera.create_video`
(timelapse_camera.py lines 239-247). -/
def cli_video_filename (cfg : Config) : String :=
  if cfg.video_format.toLower = "mp4" then cfg.filename_stem ++ "_timelapse.mp4"
  else if cfg.video_format.toLower = "avi" then cfg.filename_stem ++ "_timelapse.avi"
  else cfg.filename_stem ++ "_timelapse.mp4"

/-- The video filename chosen by `TimelapseGUI._create_video`
(timelapse_gui.py lines 1220-1225). -/
def gui_video_filename (cfg : Config) : String :=
  if cfg.video_format.toLower = "mp4" then cfg.filename_stem ++ "_timelapse.mp4"
  else cfg.filename_stem ++ "_timelapse.avi"

/-- `TimelapseCamera.create_video` on a directory listing. -/
def create_video (cfg : Config) (listing : List String)
    (writeOk : String → Bool) : VideoResult :=
  create_video_core cfg.image_format (cli_video_filename cfg) cfg.cleanup_images
    listing writeOk

/-- `TimelapseGUI._create_video` on a directory listing. -/
def gui_create_video (cfg : Config) (listing : List String)
    (writeOk : String → Bool) : VideoResult :=
  create_video_core cfg.image_format (gui_video_filename cfg) cfg.cleanup_images
    listing writeOk

/-! ## Configuration file handling -/

/-- A parsed user configuration JSON object: any subset of the keys may be
present (`self.config.update(user_config)` replaces exactly the provided
keys, timelapse_camera.py line 83). -/
structure ConfigPatch where
  camera_index : Option Nat := none
  interval_seconds : Option Nat := none
  duration_minutes : Option Nat := none
  res_width : Option Nat := none
  res_height : Option Nat := none
  output_dir : Option String := none
  image_format : Option String := none
  image_quality : Option Nat := none
  filename_stem : Option String := none
  auto_exposure : Option Bool := none
  brightness : Option Int := none
  contrast : Option Int := none
  saturation : Option Int := none
  create_video : Option Bool := none
  video_fps : Option Nat := none
  video_format : Option String := none
  cleanup_images : Option Bool := none
  preview_window : Option Bool := none
  deriving DecidableEq, Repr

/-- Python `dict.update`: keys present in the patch replace the current
values, absent keys are kept. -/
def Config.update (cfg : Config) (p : ConfigPatch) : Config where
  camera_index := p.camera_index.getD cfg.camera_index
  interval_seconds := p.interval_seconds.getD cfg.interval_seconds
  duration_minutes := p.duration_minutes.getD cfg.duration_minutes
  res_width := p.res_width.getD cfg.res_width
  res_height := p.res_height.getD cfg.res_height
  output_dir := p.output_dir.getD cfg.output_dir
  image_format := p.image_format.getD cfg.image_format
  image_quality := p.image_quality.getD cfg.image_quality
  filename_stem := p.filename_stem.getD cfg.filename_stem
  auto_exposure := p.auto_exposure.getD cfg.auto_exposure
  brightness := p.brightness.getD cfg.brightness
  contrast := p.contrast.getD cfg.contrast
  saturation := p.saturation.getD cfg.saturation
  create_video := p.create_video.getD cfg.create_video
  video_fps := p.video_fps.getD cfg.video_fps
  video_format := p.video_format.getD cfg.video_format
  cleanup_images := p.cleanup_images.getD cfg.cleanup_images
  preview_window := p.preview_window.getD cfg.preview_window

/-- `TimelapseCamera.load_config` (timelapse_camera.py lines 73-86): on a
successful read and parse the configuration is updated in place; any
exception is caught, a message is printed, and the configuration is left
unchanged.  `parsed = none` models the exception case (unreadable file or
invalid JSON); the returned flag is whether the failure message was
printed. -/
def load_config (cfg : Config) (parsed : Option ConfigPatch) : Config × Bool :=
  match parsed with
  | some p => (cfg.update p, false)
  | none => (cfg, true)

example : pad 6 0 = "000000" := by decide
example : pad 6 12 = "000012" := by decide
example : pad 3 1 = "001" := by decide
example : test_frame_filename 0 = "frame_001.jpg" := by decide
example : png_compression 95 = 0 := by decide
example : png_compression 100 = -1 := by decide
example : strEndsWith "config.json" ".jpg" = false := by decide
example : strEndsWith "timelapse_000001.jpg" ".jpg" = true := by decide

/-! ## Frame-number bookkeeping (claim C1) -/

/-- Closed form of a command-line iteration: a file with the current counter
value is written exactly on a `fileWritten` outcome (successful save, or
save followed by a raised exception), the frame counter increments only on
a fully successful save, the recording flag survives unless ESC was pressed
on a shown preview frame or an external cancellation arrived, and the loop
ordinal advances by one. -/
theorem cli_iteration_eq (cfg : Config) (inp : IterInput) (s : SessionState) :
    cli_iteration cfg inp s =
      { is_recording :=
          (s.is_recording &&
            !(cfg.preview_window && inp.escKey && decide (inp.outcome = .saved)))
            && !inp.extCancel,
        frame_count :=
          if inp.outcome = .saved then s.frame_count + 1 else s.frame_count,
        saved_frames :=
          if inp.outcome.fileWritten = true then s.saved_frames ++ [s.frame_count]
          else s.saved_frames,
        iter := s.iter + 1 } := by
  rcases inp with ⟨o, esc, canc⟩
  rcases s with ⟨rec, fc, sf, it⟩
  cases o <;> cases esc <;> cases canc <;> cases rec <;>
    cases hp : cfg.preview_window <;>
    simp [cli_iteration, capture_frame, CapOutcome.fileWritten, hp]

/-- A command-line iteration whose outcome is not the saved-then-raised
case preserves the invariant that the saved frame numbers so far are
exactly `0, …, frame_count - 1` in order.  (A `savedThenExn` outcome breaks
it: the file is written with the current counter, which then stays put.) -/
theorem cli_iteration_saved (cfg : Config) (inp : IterInput) (s : SessionState)
    (hno : inp.outcome ≠ .savedThenExn)
    (h : s.saved_frames = List.range s.frame_count) :
    (cli_iteration cfg inp s).saved_frames =
      List.range (cli_iteration cfg inp s).frame_count := by
  rcases inp with ⟨o, esc, canc⟩
  cases o <;> cases canc <;>
    simp_all [cli_iteration, capture_frame, List.range_succ, apply_ite]

/-- When no iteration hits the saved-then-raised case, the command-line
capture loop preserves the saved-frames invariant. -/
theorem start_recording_loop_saved (cfg : Config) (inputs : Nat → IterInput)
    (now : Nat → Nat) (end_time : Nat)
    (hno : ∀ i, (inputs i).outcome ≠ .savedThenExn) :
    ∀ (fuel : Nat) (s : SessionState),
      s.saved_frames = List.range s.frame_count →
      ((start_recording_loop cfg inputs now end_time fuel s).1).saved_frames =
        List.range
          ((start_recording_loop cfg inputs now end_time fuel s).1).frame_count := by
  intro fuel
  induction fuel with
  | zero => intro s h; simpa [start_recording_loop] using h
  | succ n ih =>
    intro s h
    rw [start_recording_loop]
    split
    · simpa using h
    · split
      · simpa using h
      · exact ih _ (cli_iteration_saved cfg _ s (hno s.iter) h)

/-- A command-line iteration appends at most one saved frame number, and
any number it appends is the current counter; so the saved numbers stay
bounded by the counter and non-decreasing in write order, whatever the
outcome — also through the saved-then-raised case. -/
theorem cli_iteration_monotone (cfg : Config) (inp : IterInput)
    (s : SessionState)
    (h1 : ∀ k ∈ s.saved_frames, k ≤ s.frame_count)
    (h2 : s.saved_frames.Pairwise (· ≤ ·)) :
    (∀ k ∈ (cli_iteration cfg inp s).saved_frames,
        k ≤ (cli_iteration cfg inp s).frame_count) ∧
      (cli_iteration cfg inp s).saved_frames.Pairwise (· ≤ ·) := by
  rw [cli_iteration_eq]
  dsimp only
  constructor
  · intro k hk
    by_cases hw : inp.outcome.fileWritten = true
    · rw [if_pos hw] at hk
      rcases List.mem_append.1 hk with hk | hk
      · have := h1 k hk
        split <;> omega
      · simp only [List.mem_singleton] at hk
        subst hk
        split <;> omega
    · rw [if_neg hw] at hk
      have := h1 k hk
      split <;> omega
  · by_cases hw : inp.outcome.fileWritten = true
    · rw [if_pos hw]
      refine List.pairwise_append.2 ⟨h2, by simp, ?_⟩
      intro a ha b hb
      simp only [List.mem_singleton] at hb
      subst hb
      exact h1 a ha
    · rw [if_neg hw]
      exact h2

/-- The command-line capture loop keeps the saved frame numbers
non-decreasing and bounded by the frame counter. -/
theorem start_recording_loop_monotone (cfg : Config)
    (inputs : Nat → IterInput) (now : Nat → Nat) (end_time : Nat) :
    ∀ (fuel : Nat) (s : SessionState),
      (∀ k ∈ s.saved_frames, k ≤ s.frame_count) →
      s.saved_frames.Pairwise (· ≤ ·) →
      ((∀ k ∈ ((start_recording_loop cfg inputs now end_time fuel
            s).1).saved_frames,
          k ≤ ((start_recording_loop cfg inputs now end_time fuel
            s).1).frame_count) ∧
        ((start_recording_loop cfg inputs now end_time fuel
            s).1).saved_frames.Pairwise (· ≤ ·)) := by
  intro fuel
  induction fuel with
  | zero => intro s h1 h2; simpa [start_recording_loop] using ⟨h1, h2⟩
  | succ n ih =>
    intro s h1 h2
    rw [start_recording_loop]
    split
    · simpa using ⟨h1, h2⟩
    · split
      · simpa using ⟨h1, h2⟩
      · obtain ⟨g1, g2⟩ := cli_iteration_monotone cfg (inputs s.iter) s h1 h2
        exact ih _ g1 g2

/-- Each command-line pass writes at most one file: the number of saved
files never exceeds the loop ordinal. -/
theorem start_recording_loop_len_le_iter (cfg : Config)
    (inputs : Nat → IterInput) (now : Nat → Nat) (end_time : Nat) :
    ∀ (fuel : Nat) (s : SessionState),
      s.saved_frames.length ≤ s.iter →
      ((start_recording_loop cfg inputs now end_time fuel
          s).1).saved_frames.length ≤
        ((start_recording_loop cfg inputs now end_time fuel s).1).iter := by
  intro fuel
  induction fuel with
  | zero => intro s h; simpa [start_recording_loop] using h
  | succ n ih =>
    intro s h
    rw [start_recording_loop]
    split
    · simpa using h
    · split
      · simpa using h
      · apply ih
        rw [cli_iteration_eq]
        dsimp only
        split
        · simp only [List.length_append, List.length_singleton]
          omega
        · omega

/-- One GUI iteration that does not raise preserves the saved-frames
invariant. -/
theorem gui_iteration_saved (inp : IterInput) (s s1 : SessionState)
    (h : s.saved_frames = List.range s.frame_count)
    (hstep : gui_iteration inp s = some s1) :
    s1.saved_frames = List.range s1.frame_count := by
  rcases inp with ⟨o, esc, canc⟩
  cases o with
  | exn => simp [gui_iteration] at hstep
  | saved =>
    rw [gui_iteration] at hstep
    injection hstep with h1
    subst h1
    cases canc <;> simp [h, List.range_succ]
  | savedThenExn =>
    rw [gui_iteration] at hstep
    injection hstep with h1
    subst h1
    cases canc <;> simp [h]
  | readFail =>
    rw [gui_iteration] at hstep
    injection hstep with h1
    subst h1
    cases canc <;> simp [h]
  | writeFail =>
    rw [gui_iteration] at hstep
    injection hstep with h1
    subst h1
    cases canc <;> simp [h]

/-- The GUI capture loop preserves the saved-frames invariant. -/
theorem recording_worker_loop_saved (inputs : Nat → IterInput)
    (now : Nat → Nat) (end_time : Option Nat) :
    ∀ (fuel : Nat) (s : SessionState),
      s.saved_frames = List.range s.frame_count →
      ((recording_worker_loop inputs now end_time fuel s).1).saved_frames =
        List.range
          ((recording_worker_loop inputs now end_time fuel s).1).frame_count := by
  intro fuel
  induction fuel with
  | zero => intro s h; simpa [recording_worker_loop] using h
  | succ n ih =>
    intro s h
    rw [recording_worker_loop]
    split
    · simpa using h
    · split
      · simpa using h
      · cases hstep : gui_iteration (inputs s.iter) s with
        | none => simpa using h
        | some s1 => simpa using ih _ (gui_iteration_saved _ s s1 h hstep)

/-- C1 (counterexample): the frame numbers of successfully saved files are
not unique or strictly increasing in the command-line loop, because the
counter is not incremented exactly when a save succeeds: the `try` block of
`capture_frame` spans the post-write preview/logging, so an exception there
(e.g. `cv2.imshow` on a GUI-less OpenCV build, with `preview_window` on by
default) makes the function return `False` with the file already written.
Concrete run (identity clock, time limit 2): pass 0 writes
`timelapse_000000.jpg` and then raises, so `frame_count` stays 0; pass 1
writes `timelapse_000000.jpg` again, overwriting it.  The saved numbers are
`[0, 0]`: duplicated, not strictly increasing. -/
theorem C1_counterexample :
    ((start_recording_loop load_default_config
        (fun i => ⟨if i = 0 then .savedThenExn else .saved, false, false⟩)
        (fun i => i) 2 10 initialSessionState).1).saved_frames = [0, 0] ∧
      cli_frame_filename load_default_config 0 = "timelapse_000000.jpg" ∧
      ¬ ([0, 0] : List Nat).Pairwise (· < ·) ∧
      ¬ ([0, 0] : List Nat).Nodup := by decide

/-- C1 (amended): in the GUI capture loop the saved frame numbers are
exactly `0, 1, …` in save order — strictly increasing and unique — because
there the counter increments immediately when the write succeeds.  In the
command-line loop every written file carries the counter value of its pass,
so the saved numbers are non-decreasing and never exceed the final counter;
they are strictly increasing and unique whenever no iteration raises after
its successful write — an exception between `cv2.imwrite` and
`return True` suppresses the increment and the next save reuses the
number. -/
theorem C1_saved_frame_numbers (cfg : Config) (inputs : Nat → IterInput)
    (now : Nat → Nat) (end_time : Nat) (guiEnd : Option Nat) (fuel : Nat) :
    (((recording_worker_loop inputs now guiEnd fuel
          initialSessionState).1).saved_frames.Pairwise (· < ·) ∧
      ((recording_worker_loop inputs now guiEnd fuel
          initialSessionState).1).saved_frames.Nodup) ∧
    (((start_recording_loop cfg inputs now end_time fuel
          initialSessionState).1).saved_frames.Pairwise (· ≤ ·) ∧
      (∀ k ∈ ((start_recording_loop cfg inputs now end_time fuel
            initialSessionState).1).saved_frames,
        k ≤ ((start_recording_loop cfg inputs now end_time fuel
            initialSessionState).1).frame_count)) ∧
    ((∀ i, (inputs i).outcome ≠ .savedThenExn) →
      ((start_recording_loop cfg inputs now end_time fuel
          initialSessionState).1).saved_frames.Pairwise (· < ·) ∧
        ((start_recording_loop cfg inputs now end_time fuel
            initialSessionState).1).saved_frames.Nodup) := by
  have h0 : initialSessionState.saved_frames =
      List.range initialSessionState.frame_count := by
    simp [initialSessionState]
  have h2 := recording_worker_loop_saved inputs now guiEnd fuel
    initialSessionState h0
  have hmono := start_recording_loop_monotone cfg inputs now end_time fuel
    initialSessionState (by simp [initialSessionState])
    (by simp [initialSessionState])
  refine ⟨?_, ⟨hmono.2, hmono.1⟩, ?_⟩
  · rw [h2]
    exact ⟨List.pairwise_lt_range _, List.nodup_range _⟩
  · intro hno
    have h1 := start_recording_loop_saved cfg inputs now end_time hno fuel
      initialSessionState h0
    rw [h1]
    exact ⟨List.pairwise_lt_range _, List.nodup_range _⟩

/-- Witness for `C1_saved_frame_numbers`: a command-line run whose saves
all fully succeed has strictly increasing, duplicate-free frame numbers. -/
theorem C1_witness :
    ((start_recording_loop load_default_config
        (fun _ => ⟨.saved, false, false⟩) (fun i => i) 3 10
        initialSessionState).1).saved_frames.Pairwise (· < ·) ∧
      ((start_recording_loop load_default_config
          (fun _ => ⟨.saved, false, false⟩) (fun i => i) 3 10
          initialSessionState).1).saved_frames.Nodup := by
  have h := (C1_saved_frame_numbers load_default_config
      (fun _ => ⟨.saved, false, false⟩) (fun i => i) 3 none 10).2.2 ?_
  · exact h
  · intro i
    show CapOutcome.saved ≠ CapOutcome.savedThenExn
    decide

/-! ## PNG compression parameter (claim C9) -/

/-- C9 (counterexample): quality 100 lies in the documented range 1..100,
yet the PNG compression parameter the code computes for it,
`9 - 100 // 10`, is `-1`, outside the encoder's valid range 0..9. -/
theorem C9_counterexample :
    (1 ≤ 100 ∧ 100 ≤ 100) ∧ png_compression 100 = -1 ∧
      ¬ (0 ≤ png_compression 100 ∧ png_compression 100 ≤ 9) := by decide

/-- C9 (amended): for every configured image quality in 1..99 the PNG
compression parameter `9 - image_quality // 10` lies within the encoder's
valid range 0..9; at the documented maximum quality 100 it is `-1`. -/
theorem C9_png_compression_range (q : Nat) (h1 : 1 ≤ q) (h2 : q ≤ 99) :
    (0 ≤ png_compression q ∧ png_compression q ≤ 9) ∧
      png_compression 100 = -1 := by
  refine ⟨?_, by decide⟩
  unfold png_compression
  omega

/-- Witness for `C9_png_compression_range` at quality 50. -/
theorem C9_witness :
    (1 ≤ 50 ∧ 50 ≤ 99) ∧
      ((0 ≤ png_compression 50 ∧ png_compression 50 ≤ 9) ∧
        png_compression 100 = -1) :=
  ⟨by decide, C9_png_compression_range 50 (by decide) (by decide)⟩

/-! ## Loop-step bookkeeping lemmas -/

/-- Closed form of a GUI iteration: `none` exactly on the `exn` outcome;
otherwise the frame counter and saved list change exactly on a successful
save, the flag survives unless externally cancelled, and the ordinal
advances by one. -/
theorem gui_iteration_eq (inp : IterInput) (s : SessionState) :
    gui_iteration inp s =
      if inp.outcome = .exn then none
      else some
        { is_recording := s.is_recording && !inp.extCancel,
          frame_count :=
            if inp.outcome = .saved then s.frame_count + 1 else s.frame_count,
          saved_frames :=
            if inp.outcome = .saved then s.saved_frames ++ [s.frame_count]
            else s.saved_frames,
          iter := s.iter + 1 } := by
  rcases inp with ⟨o, esc, canc⟩
  rcases s with ⟨rec, fc, sf, it⟩
  cases o <;> cases canc <;> cases rec <;> simp [gui_iteration]

/-- An external cancellation during a command-line iteration leaves the
recording flag `False`. -/
theorem cli_iteration_cancel (cfg : Config) (inp : IterInput) (s : SessionState)
    (h : inp.extCancel = true) :
    (cli_iteration cfg inp s).is_recording = false := by
  rw [cli_iteration_eq]
  simp [h]

/-- Once `is_recording` is `False`, the command-line loop does not run any
further iteration: the state is returned unchanged. -/
theorem start_recording_loop_stopped (cfg : Config) (inputs : Nat → IterInput)
    (now : Nat → Nat) (end_time : Nat) (fuel : Nat) (s : SessionState)
    (h : s.is_recording = false) :
    (start_recording_loop cfg inputs now end_time fuel s).1 = s := by
  cases fuel <;> simp [start_recording_loop, h]

/-- An external cancellation during a GUI iteration leaves the recording
flag `False`. -/
theorem gui_iteration_cancel (inp : IterInput) (s s1 : SessionState)
    (h : inp.extCancel = true) (hstep : gui_iteration inp s = some s1) :
    s1.is_recording = false := by
  rw [gui_iteration_eq] at hstep
  split at hstep
  · exact absurd hstep (by simp)
  · injection hstep with h1
    subst h1
    simp [h]

/-- The GUI iteration raises exactly on the `exn` outcome. -/
theorem gui_iteration_none_iff (inp : IterInput) (s : SessionState) :
    gui_iteration inp s = none ↔ inp.outcome = .exn := by
  rw [gui_iteration_eq]
  split <;> simp_all

/-- A non-raising GUI iteration advances the loop ordinal by one. -/
theorem gui_iteration_iter (inp : IterInput) (s s1 : SessionState)
    (hstep : gui_iteration inp s = some s1) : s1.iter = s.iter + 1 := by
  rw [gui_iteration_eq] at hstep
  split at hstep
  · exact absurd hstep (by simp)
  · injection hstep with h1
    subst h1
    rfl

/-- A non-raising GUI iteration captures at most one frame. -/
theorem gui_iteration_frame_count_le (inp : IterInput) (s s1 : SessionState)
    (hstep : gui_iteration inp s = some s1) :
    s1.frame_count ≤ s.frame_count + 1 := by
  rw [gui_iteration_eq] at hstep
  split at hstep
  · exact absurd hstep (by simp)
  · injection hstep with h1
    subst h1
    dsimp only
    split <;> omega

/-- Once `is_recording` is `False`, the GUI loop does not run any further
iteration. -/
theorem recording_worker_loop_stopped (inputs : Nat → IterInput)
    (now : Nat → Nat) (end_time : Option Nat) (fuel : Nat) (s : SessionState)
    (h : s.is_recording = false) :
    (recording_worker_loop inputs now end_time fuel s).1 = s := by
  cases fuel <;> simp [recording_worker_loop, h]

/-! ## Loop exit analysis (claims C2, C3) -/

/-- Exit characterization of the command-line capture loop: a genuine exit
is either a cancellation observed at the loop check, or the time limit. -/
theorem start_recording_loop_exit (cfg : Config) (inputs : Nat → IterInput)
    (now : Nat → Nat) (end_time : Nat) :
    ∀ (fuel : Nat) (s s1 : SessionState) (r : ExitReason),
      start_recording_loop cfg inputs now end_time fuel s = (s1, some r) →
      (r = .cancelled ∧ s1.is_recording = false) ∨
        (r = .timeLimit ∧ end_time ≤ now s1.iter) := by
  intro fuel
  induction fuel with
  | zero => intro s s1 r h; simp [start_recording_loop] at h
  | succ n ih =>
    intro s s1 r h
    rw [start_recording_loop] at h
    split at h
    · next hrec =>
      simp only [Prod.mk.injEq, Option.some.injEq] at h
      obtain ⟨rfl, rfl⟩ := h
      exact Or.inl ⟨rfl, hrec⟩
    · split at h
      · next htime =>
        simp only [Prod.mk.injEq, Option.some.injEq] at h
        obtain ⟨rfl, rfl⟩ := h
        exact Or.inr ⟨rfl, htime⟩
      · exact ih _ _ _ h

/-- Exit characterization of the GUI capture loop: a genuine exit is a
cancellation, the time limit, or an exception raised by the iteration in
progress. -/
theorem recording_worker_loop_exit (inputs : Nat → IterInput)
    (now : Nat → Nat) (end_time : Option Nat) :
    ∀ (fuel : Nat) (s s1 : SessionState) (r : ExitReason),
      recording_worker_loop inputs now end_time fuel s = (s1, some r) →
      (r = .cancelled ∧ s1.is_recording = false) ∨
        (r = .timeLimit ∧ timeUp end_time (now s1.iter) = true) ∨
        (r = .errored ∧ (inputs s1.iter).outcome = .exn) := by
  intro fuel
  induction fuel with
  | zero => intro s s1 r h; simp [recording_worker_loop] at h
  | succ n ih =>
    intro s s1 r h
    rw [recording_worker_loop] at h
    split at h
    · next hrec =>
      simp only [Prod.mk.injEq, Option.some.injEq] at h
      obtain ⟨rfl, rfl⟩ := h
      exact Or.inl ⟨rfl, hrec⟩
    · split at h
      · next htime =>
        simp only [Prod.mk.injEq, Option.some.injEq] at h
        obtain ⟨rfl, rfl⟩ := h
        exact Or.inr (Or.inl ⟨rfl, htime⟩)
      · cases hstep : gui_iteration (inputs s.iter) s with
        | none =>
          rw [hstep] at h
          simp only [Prod.mk.injEq, Option.some.injEq] at h
          obtain ⟨rfl, rfl⟩ := h
          exact Or.inr (Or.inr ⟨rfl, (gui_iteration_none_iff _ _).1 hstep⟩)
        | some s2 =>
          rw [hstep] at h
          exact ih _ _ _ h

/-- With a clock that has advanced at least one unit by each loop pass, the
command-line loop with time limit `end_time` genuinely exits given a little
more fuel than `end_time`: the loop cannot run forever. -/
theorem start_recording_loop_terminates (cfg : Config)
    (inputs : Nat → IterInput) (now : Nat → Nat) (end_time : Nat)
    (hnow : ∀ i, i ≤ now i) :
    ∀ (fuel : Nat) (s : SessionState), end_time ≤ s.iter + fuel →
      (start_recording_loop cfg inputs now end_time (fuel + 1) s).2.isSome := by
  intro fuel
  induction fuel with
  | zero =>
    intro s hle
    rw [start_recording_loop]
    split
    · simp
    · split
      · simp
      · next h2 =>
        exact absurd (le_trans (by omega : end_time ≤ s.iter) (hnow s.iter)) h2
  | succ n ih =>
    intro s hle
    rw [start_recording_loop]
    split
    · simp
    · split
      · simp
      · apply ih
        rw [cli_iteration_eq]
        dsimp only
        omega

/-- The `for i in range(total_frames)` loop of the smoke test always ends by
exhausting its range: the frame-count limit. -/
theorem test_loop_reason (readOk writeOk : Nat → Bool) :
    ∀ (remaining i : Nat) (acc : List String),
      (test_loop readOk writeOk remaining i acc).2 = .frameLimit := by
  intro remaining
  induction remaining with
  | zero => intro i acc; rfl
  | succ n ih => intro i acc; rw [test_loop]; exact ih _ _

/-- If the iteration of loop pass `c` always clears the recording flag, the
command-line loop runs no pass beyond `c`: the final loop ordinal is at most
`c + 1`. -/
theorem start_recording_loop_cancel_iter (cfg : Config)
    (inputs : Nat → IterInput) (now : Nat → Nat) (end_time : Nat) (c : Nat)
    (hclear : ∀ s, (cli_iteration cfg (inputs c) s).is_recording = false) :
    ∀ (fuel : Nat) (s : SessionState), s.iter ≤ c →
      ((start_recording_loop cfg inputs now end_time fuel s).1).iter ≤ c + 1 := by
  intro fuel
  induction fuel with
  | zero =>
    intro s h
    simpa [start_recording_loop] using Nat.le_succ_of_le h
  | succ n ih =>
    intro s h
    rw [start_recording_loop]
    split
    · simpa using Nat.le_succ_of_le h
    · split
      · simpa using Nat.le_succ_of_le h
      · rcases Nat.lt_or_ge s.iter c with hlt | hge
        · apply ih
          rw [cli_iteration_eq]
          dsimp only
          omega
        · have hiter : s.iter = c := le_antisymm h hge
          have hflag : (cli_iteration cfg (inputs s.iter) s).is_recording = false := by
            rw [hiter]; exact hclear s
          rw [start_recording_loop_stopped cfg inputs now end_time n _ hflag]
          rw [cli_iteration_eq]
          dsimp only
          omega

/-- The command-line loop keeps `frame_count ≤ iter`: each pass saves at
most one frame. -/
theorem start_recording_loop_count_le_iter (cfg : Config)
    (inputs : Nat → IterInput) (now : Nat → Nat) (end_time : Nat) :
    ∀ (fuel : Nat) (s : SessionState), s.frame_count ≤ s.iter →
      ((start_recording_loop cfg inputs now end_time fuel s).1).frame_count ≤
        ((start_recording_loop cfg inputs now end_time fuel s).1).iter := by
  intro fuel
  induction fuel with
  | zero => intro s h; simpa [start_recording_loop] using h
  | succ n ih =>
    intro s h
    rw [start_recording_loop]
    split
    · simpa using h
    · split
      · simpa using h
      · apply ih
        rw [cli_iteration_eq]
        dsimp only
        split <;> omega

/-- If an external cancellation arrives during GUI loop pass `c`, the GUI
loop runs no pass beyond `c`. -/
theorem recording_worker_loop_cancel_iter (inputs : Nat → IterInput)
    (now : Nat → Nat) (end_time : Option Nat) (c : Nat)
    (hc : (inputs c).extCancel = true) :
    ∀ (fuel : Nat) (s : SessionState), s.iter ≤ c →
      ((recording_worker_loop inputs now end_time fuel s).1).iter ≤ c + 1 := by
  intro fuel
  induction fuel with
  | zero =>
    intro s h
    simpa [recording_worker_loop] using Nat.le_succ_of_le h
  | succ n ih =>
    intro s h
    rw [recording_worker_loop]
    split
    · simpa using Nat.le_succ_of_le h
    · split
      · simpa using Nat.le_succ_of_le h
      · cases hstep : gui_iteration (inputs s.iter) s with
        | none => simpa using Nat.le_succ_of_le h
        | some s2 =>
          rcases Nat.lt_or_ge s.iter c with hlt | hge
          · apply ih
            have := gui_iteration_iter _ _ _ hstep
            omega
          · have hiter : s.iter = c := le_antisymm h hge
            have hflag : s2.is_recording = false := by
              apply gui_iteration_cancel _ s s2 _ hstep
              rw [hiter]; exact hc
            rw [recording_worker_loop_stopped inputs now end_time n _ hflag]
            have := gui_iteration_iter _ _ _ hstep
            omega

/-- The GUI loop keeps `frame_count ≤ iter`. -/
theorem recording_worker_loop_count_le_iter (inputs : Nat → IterInput)
    (now : Nat → Nat) (end_time : Option Nat) :
    ∀ (fuel : Nat) (s : SessionState), s.frame_count ≤ s.iter →
      ((recording_worker_loop inputs now end_time fuel s).1).frame_count ≤
        ((recording_worker_loop inputs now end_time fuel s).1).iter := by
  intro fuel
  induction fuel with
  | zero => intro s h; simpa [recording_worker_loop] using h
  | succ n ih =>
    intro s h
    rw [recording_worker_loop]
    split
    · simpa using h
    · split
      · simpa using h
      · cases hstep : gui_iteration (inputs s.iter) s with
        | none => simpa using h
        | some s2 =>
          apply ih
          have h1 := gui_iteration_iter _ _ _ hstep
          have h2 := gui_iteration_frame_count_le _ _ _ hstep
          omega

/-- C2 (counterexample): the GUI capture loop can exit by a condition other
than time limit, frame limit or cancellation: with the recording flag never
cleared and no time limit configured, an exception raised by the first
iteration (for example `cv2.imwrite` raising on an unsupported image
extension) makes the loop exit with reason `errored`. -/
theorem C2_counterexample :
    recording_worker_loop (fun _ => ⟨.exn, false, false⟩) (fun _ => 0) none 5
        initialSessionState = (initialSessionState, some .errored) ∧
      ExitReason.errored ≠ .cancelled ∧ ExitReason.errored ≠ .timeLimit ∧
      ExitReason.errored ≠ .frameLimit := by decide

/-- C2 (amended): a capture session ends exactly when its loop exits, and
the possible exits are: for the command-line loop, cancellation (the
`is_recording` flag found `False`) or the time limit — and with a clock that
advances with each pass the loop does exit; for the GUI loop, cancellation,
the time limit, or an exception escaping the iteration in progress (which
the worker-level handler logs, ending the session); for the smoke-test
loop, exhausting its fixed frame count.  No other condition terminates a
session. -/
theorem C2_exit_reasons (cfg : Config) (inputs : Nat → IterInput)
    (now : Nat → Nat) (end_time : Nat) (guiEnd : Option Nat)
    (readOk writeOk : Nat → Bool) (n : Nat) :
    (∀ (fuel : Nat) (s s1 : SessionState) (r : ExitReason),
        start_recording_loop cfg inputs now end_time fuel s = (s1, some r) →
        (r = .cancelled ∧ s1.is_recording = false) ∨
          (r = .timeLimit ∧ end_time ≤ now s1.iter)) ∧
    ((∀ i, i ≤ now i) → ∀ (fuel : Nat) (s : SessionState),
        end_time ≤ s.iter + fuel →
        (start_recording_loop cfg inputs now end_time (fuel + 1) s).2.isSome) ∧
    (∀ (fuel : Nat) (s s1 : SessionState) (r : ExitReason),
        recording_worker_loop inputs now guiEnd fuel s = (s1, some r) →
        (r = .cancelled ∧ s1.is_recording = false) ∨
          (r = .timeLimit ∧ timeUp guiEnd (now s1.iter) = true) ∨
          (r = .errored ∧ (inputs s1.iter).outcome = .exn)) ∧
    (test_short_timelapse readOk writeOk n).2 = .frameLimit :=
  ⟨start_recording_loop_exit cfg inputs now end_time,
   fun hnow => start_recording_loop_terminates cfg inputs now end_time hnow,
   recording_worker_loop_exit inputs now guiEnd,
   test_loop_reason readOk writeOk n 0 []⟩

/-- Witness for `C2_exit_reasons`: with the identity clock and time limit 3,
the command-line loop genuinely exits within 4 passes. -/
theorem C2_witness :
    (start_recording_loop load_default_config (fun _ => ⟨.saved, false, false⟩)
        (fun i => i) 3 (3 + 1) initialSessionState).2.isSome :=
  (C2_exit_reasons load_default_config (fun _ => ⟨.saved, false, false⟩)
      (fun i => i) 3 none (fun _ => true) (fun _ => true) 0).2.1
    (fun i => Nat.le_refl i) 3 initialSessionState (by decide)

/-- C3: cancellation is the `is_recording` flag checked once per loop pass.
If the flag is cleared during pass `c` — in the command-line loop by the
signal handler or by ESC pressed on a successfully shown preview frame, in
the GUI loop by the stop action or timer thread — then no pass beyond the
one in progress starts (the final pass ordinal is at most `c + 1`), and
since each pass saves at most one frame, at most `c + 1` frames are saved in
total: at most one more than the `c` passes that began before the
cancellation. -/
theorem C3_cancellation (cfg : Config) (inputs : Nat → IterInput)
    (now : Nat → Nat) (end_time : Nat) (guiEnd : Option Nat) (fuel c : Nat)
    (hc : (inputs c).extCancel = true ∨
      (cfg.preview_window = true ∧ (inputs c).escKey = true ∧
        (inputs c).outcome = .saved)) :
    (((start_recording_loop cfg inputs now end_time fuel
          initialSessionState).1).iter ≤ c + 1 ∧
      ((start_recording_loop cfg inputs now end_time fuel
          initialSessionState).1).saved_frames.length ≤ c + 1) ∧
    ((inputs c).extCancel = true →
      ((recording_worker_loop inputs now guiEnd fuel
          initialSessionState).1).iter ≤ c + 1 ∧
        ((recording_worker_loop inputs now guiEnd fuel
            initialSessionState).1).saved_frames.length ≤ c + 1) := by
  have hclear : ∀ s, (cli_iteration cfg (inputs c) s).is_recording = false := by
    intro s
    rw [cli_iteration_eq]
    rcases hc with h | ⟨h1, h2, h3⟩
    · simp [h]
    · simp [h1, h2, h3]
  have hcli_iter := start_recording_loop_cancel_iter cfg inputs now end_time c
    hclear fuel initialSessionState (by simp [initialSessionState])
  have hcli_len := start_recording_loop_len_le_iter cfg inputs now end_time
    fuel initialSessionState (by simp [initialSessionState])
  refine ⟨⟨hcli_iter, ?_⟩, fun hext => ?_⟩
  · omega
  · have hgui_iter := recording_worker_loop_cancel_iter inputs now guiEnd c hext
      fuel initialSessionState (by simp [initialSessionState])
    have hgui_saved := recording_worker_loop_saved inputs now guiEnd fuel
      initialSessionState (by simp [initialSessionState])
    have hgui_count := recording_worker_loop_count_le_iter inputs now guiEnd
      fuel initialSessionState (by simp [initialSessionState])
    refine ⟨hgui_iter, ?_⟩
    rw [hgui_saved, List.length_range]
    omega

/-- Witness for `C3_cancellation`: a signal during pass 1 stops both loops
after at most pass 2. -/
theorem C3_witness :
    (((start_recording_loop load_default_config
          (fun i => ⟨.saved, false, decide (i = 1)⟩) (fun _ => 0) 100 50
          initialSessionState).1).iter ≤ 1 + 1 ∧
      ((start_recording_loop load_default_config
          (fun i => ⟨.saved, false, decide (i = 1)⟩) (fun _ => 0) 100 50
          initialSessionState).1).saved_frames.length ≤ 1 + 1) ∧
    ((((fun i => (⟨.saved, false, decide (i = 1)⟩ : IterInput)) 1).extCancel = true →
      ((recording_worker_loop (fun i => ⟨.saved, false, decide (i = 1)⟩)
          (fun _ => 0) none 50 initialSessionState).1).iter ≤ 1 + 1 ∧
        ((recording_worker_loop (fun i => ⟨.saved, false, decide (i = 1)⟩)
            (fun _ => 0) none 50 initialSessionState).1).saved_frames.length ≤ 1 + 1)) :=
  C3_cancellation load_default_config (fun i => ⟨.saved, false, decide (i = 1)⟩)
    (fun _ => 0) 100 none 50 1 (Or.inl (by decide))

/-! ## Error handling (claim C7) and video invocation (claim C8) -/

/-- In the command-line loop, the capture outcomes — read failures, write
failures, exceptions caught inside `capture_frame` — never influence whether
or why the loop continues: two runs whose external cancellations agree (and
with no ESC press) pass through the same loop ordinals and exit identically,
whatever their capture outcomes. -/
theorem start_recording_loop_outcome_irrelevant (cfg : Config)
    (inputs inputs' : Nat → IterInput) (now : Nat → Nat) (end_time : Nat)
    (h : ∀ i, (inputs i).extCancel = (inputs' i).extCancel ∧
        (inputs i).escKey = false ∧ (inputs' i).escKey = false) :
    ∀ (fuel : Nat) (s t : SessionState),
      s.is_recording = t.is_recording → s.iter = t.iter →
      ((start_recording_loop cfg inputs now end_time fuel s).1.is_recording =
          (start_recording_loop cfg inputs' now end_time fuel t).1.is_recording ∧
        (start_recording_loop cfg inputs now end_time fuel s).1.iter =
          (start_recording_loop cfg inputs' now end_time fuel t).1.iter ∧
        (start_recording_loop cfg inputs now end_time fuel s).2 =
          (start_recording_loop cfg inputs' now end_time fuel t).2) := by
  intro fuel
  induction fuel with
  | zero =>
    intro s t h1 h2
    simpa [start_recording_loop] using ⟨h1, h2⟩
  | succ n ih =>
    intro s t h1 h2
    rw [start_recording_loop, start_recording_loop]
    by_cases hrec : s.is_recording = false
    · rw [if_pos hrec, if_pos (show t.is_recording = false by rw [← h1]; exact hrec)]
      exact ⟨h1, h2, rfl⟩
    · rw [if_neg hrec,
        if_neg (show ¬t.is_recording = false by rw [← h1]; exact hrec)]
      by_cases htime : end_time ≤ now s.iter
      · rw [if_pos htime,
          if_pos (show end_time ≤ now t.iter by rw [← h2]; exact htime)]
        exact ⟨h1, h2, rfl⟩
      · rw [if_neg htime,
          if_neg (show ¬end_time ≤ now t.iter by rw [← h2]; exact htime)]
        apply ih
        · rw [cli_iteration_eq, cli_iteration_eq]
          dsimp only
          obtain ⟨hcanc, hesc, hesc'⟩ := h s.iter
          rw [← h2]
          simp [hesc, hesc', hcanc, h1]
        · rw [cli_iteration_eq, cli_iteration_eq]
          dsimp only
          rw [h2]

/-- When no iteration raises, the GUI capture loop never exits with reason
`errored`: read and write failures reported by return value only skip the
iteration's save. -/
theorem recording_worker_loop_no_exn (inputs : Nat → IterInput)
    (now : Nat → Nat) (end_time : Option Nat)
    (h : ∀ i, (inputs i).outcome ≠ .exn) :
    ∀ (fuel : Nat) (s : SessionState),
      (recording_worker_loop inputs now end_time fuel s).2 ≠ some .errored := by
  intro fuel
  induction fuel with
  | zero => intro s; simp [recording_worker_loop]
  | succ n ih =>
    intro s
    rw [recording_worker_loop]
    split
    · simp
    · split
      · simp
      · cases hstep : gui_iteration (inputs s.iter) s with
        | none => exact absurd ((gui_iteration_none_iff _ _).1 hstep) (h s.iter)
        | some s1 => exact ih s1

/-- C7 (counterexample): in the GUI capture loop an I/O failure that raises
an exception terminates the session rather than aborting only the current
iteration.  With the identity clock and time limit 3, a write failure
reported by return value at pass 1 lets the loop continue to its time limit
(3 passes), but an exception at pass 1 ends the session there, after a
single completed pass. -/
theorem C7_counterexample :
    recording_worker_loop
        (fun i => ⟨if i = 1 then .exn else .saved, false, false⟩)
        (fun i => i) (some 3) 10 initialSessionState
      = (⟨true, 1, [0], 1⟩, some .errored) ∧
    recording_worker_loop
        (fun i => ⟨if i = 1 then .writeFail else .saved, false, false⟩)
        (fun i => i) (some 3) 10 initialSessionState
      = (⟨true, 2, [0, 1], 3⟩, some .timeLimit) := by decide

/-- C7 (amended): in the command-line program every listed I/O operation is
guarded — a capture failure of any kind (including a raised exception,
caught inside `capture_frame`) aborts only that iteration and never alters
whether the loop continues, and a failed configuration load is caught,
logged, and leaves the configuration unchanged.  In the GUI, read and write
failures reported by return value likewise abort only the current iteration
(the loop never exits `errored` without an exception), but an exception
raised by an I/O operation is caught only by the worker-level handler, which
logs it and ends the session; likewise a failing configuration save ends the
session before any frame is captured. -/
theorem C7_error_handling (cfg : Config) (now : Nat → Nat) (end_time : Nat)
    (guiEnd : Option Nat) :
    (∀ inputs inputs' : Nat → IterInput,
      (∀ i, (inputs i).extCancel = (inputs' i).extCancel ∧
          (inputs i).escKey = false ∧ (inputs' i).escKey = false) →
      ∀ fuel : Nat,
        ((start_recording_loop cfg inputs now end_time fuel
              initialSessionState).1.iter =
            (start_recording_loop cfg inputs' now end_time fuel
              initialSessionState).1.iter ∧
          (start_recording_loop cfg inputs now end_time fuel
              initialSessionState).2 =
            (start_recording_loop cfg inputs' now end_time fuel
              initialSessionState).2)) ∧
    (∀ (cfg0 : Config) (p : ConfigPatch),
      (load_config cfg0 none).1 = cfg0 ∧ (load_config cfg0 none).2 = true ∧
        (load_config cfg0 (some p)).1 = cfg0.update p) ∧
    (∀ inputs : Nat → IterInput, (∀ i, (inputs i).outcome ≠ .exn) →
      ∀ (fuel : Nat) (s : SessionState),
        (recording_worker_loop inputs now guiEnd fuel s).2 ≠ some .errored) ∧
    (∀ (inputs : Nat → IterInput) (fuel : Nat),
      recording_worker cfg true false inputs now guiEnd fuel =
        some (initialSessionState, some .errored, false)) := by
  refine ⟨?_, ?_, ?_, ?_⟩
  · intro inputs inputs' h fuel
    have := start_recording_loop_outcome_irrelevant cfg inputs inputs' now
      end_time h fuel initialSessionState initialSessionState rfl rfl
    exact ⟨this.2.1, this.2.2⟩
  · intro cfg0 p
    exact ⟨rfl, rfl, rfl⟩
  · exact fun inputs => recording_worker_loop_no_exn inputs now guiEnd
  · intro inputs fuel
    rfl

/-- Witness for `C7_error_handling`: a run whose writes all fail by return
value never exits `errored`. -/
theorem C7_witness :
    (recording_worker_loop (fun _ => ⟨.writeFail, false, false⟩) (fun i => i)
        (some 2) 9 initialSessionState).2 ≠ some .errored := by
  have h := (C7_error_handling load_default_config (fun i => i) 0 (some 2)).2.2.1
    (fun _ => ⟨.writeFail, false, false⟩) ?_ 9 initialSessionState
  · exact h
  · intro i
    show CapOutcome.writeFail ≠ CapOutcome.exn
    decide

/-- C8 (counterexample): the GUI session can end with `create_video` set and
`frame_count > 0` and yet never invoke the video-assembly step: a frame is
saved at pass 0, then pass 1 raises, control jumps to the worker-level
handler, and `_create_video` is skipped. -/
theorem C8_counterexample :
    recording_worker load_default_config true true
        (fun i => ⟨if i = 0 then .saved else .exn, false, false⟩)
        (fun _ => 0) none 5
      = some (⟨true, 1, [0], 1⟩, some .errored, false) ∧
    load_default_config.create_video = true ∧ 0 < (1 : Nat) := by decide

/-- C8 (amended): after the capture loop ends, the video-assembly step is
invoked if and only if the `create_video` flag is set and `frame_count > 0`
— unconditionally in the command-line program, and in the GUI whenever the
session did not end by an exception; an exception-terminated GUI session
never invokes video assembly. -/
theorem C8_video_condition (cfg : Config) (camOk : Bool)
    (inputs : Nat → IterInput) (now : Nat → Nat) (end_time : Nat)
    (guiEnd : Option Nat) (fuel : Nat) :
    (∀ (s : SessionState) (r : ExitReason) (vid : Bool),
      start_recording cfg camOk inputs now end_time fuel = some (s, some r, vid) →
      (vid = true ↔ cfg.create_video = true ∧ 0 < s.frame_count)) ∧
    (∀ (s : SessionState) (r : ExitReason) (vid : Bool),
      recording_worker cfg camOk true inputs now guiEnd fuel =
          some (s, some r, vid) →
      r ≠ .errored →
      (vid = true ↔ cfg.create_video = true ∧ 0 < s.frame_count)) ∧
    (∀ (s : SessionState) (ro : Option ExitReason) (vid : Bool),
      recording_worker cfg camOk true inputs now guiEnd fuel = some (s, ro, vid) →
      ro = some .errored → vid = false) := by
  refine ⟨?_, ?_, ?_⟩
  · intro s r vid h
    rw [start_recording] at h
    split at h
    · exact absurd h (by simp)
    · cases hloop : start_recording_loop cfg inputs now end_time fuel
          initialSessionState with
      | mk s1 r2 =>
        rw [hloop] at h
        cases r2 with
        | none => simp at h
        | some reason =>
          simp only [Option.some.injEq, Prod.mk.injEq] at h
          obtain ⟨rfl, -, rfl⟩ := h
          simp
  · intro s r vid h hr
    rw [recording_worker] at h
    split at h
    · exact absurd h (by simp)
    · rw [if_neg (show ¬(true = false) by decide)] at h
      cases hloop : recording_worker_loop inputs now guiEnd fuel
          initialSessionState with
      | mk s1 r2 =>
        rw [hloop] at h
        cases r2 with
        | none => simp at h
        | some reason =>
          cases reason with
          | errored =>
            simp only [Option.some.injEq, Prod.mk.injEq] at h
            exact absurd h.2.1.symm hr
          | cancelled =>
            simp only [Option.some.injEq, Prod.mk.injEq] at h
            obtain ⟨rfl, -, rfl⟩ := h
            simp
          | timeLimit =>
            simp only [Option.some.injEq, Prod.mk.injEq] at h
            obtain ⟨rfl, -, rfl⟩ := h
            simp
          | frameLimit =>
            simp only [Option.some.injEq, Prod.mk.injEq] at h
            obtain ⟨rfl, -, rfl⟩ := h
            simp
  · intro s ro vid h hro
    rw [recording_worker] at h
    split at h
    · exact absurd h (by simp)
    · rw [if_neg (show ¬(true = false) by decide)] at h
      cases hloop : recording_worker_loop inputs now guiEnd fuel
          initialSessionState with
      | mk s1 r2 =>
        rw [hloop] at h
        cases r2 with
        | none =>
          simp only [Option.some.injEq, Prod.mk.injEq] at h
          obtain ⟨-, h2, -⟩ := h
          rw [hro] at h2
          simp at h2
        | some reason =>
          cases reason with
          | errored =>
            simp only [Option.some.injEq, Prod.mk.injEq] at h
            exact h.2.2.symm
          | cancelled =>
            simp only [Option.some.injEq, Prod.mk.injEq] at h
            obtain ⟨-, h2, -⟩ := h
            rw [hro] at h2
            simp at h2
          | timeLimit =>
            simp only [Option.some.injEq, Prod.mk.injEq] at h
            obtain ⟨-, h2, -⟩ := h
            rw [hro] at h2
            simp at h2
          | frameLimit =>
            simp only [Option.some.injEq, Prod.mk.injEq] at h
            obtain ⟨-, h2, -⟩ := h
            rw [hro] at h2
            simp at h2

/-- Witness for `C8_video_condition`: a GUI run that exits by its time limit
with two saved frames invokes video assembly. -/
theorem C8_witness :
    ((true : Bool) = true ↔ load_default_config.create_video = true ∧
        0 < (⟨true, 2, [0, 1], 3⟩ : SessionState).frame_count) :=
  (C8_video_condition load_default_config true
      (fun i => ⟨if i = 1 then .writeFail else .saved, false, false⟩)
      (fun i => i) 0 (some 3) 10).2.1
    ⟨true, 2, [0, 1], 3⟩ .timeLimit true (by decide) (by decide)

/-! ## Video assembly (claims C4, C10) -/

/-- The frame-writing loop writes exactly the longest all-successful prefix
of its input, and an exception occurred exactly when some write failed. -/
theorem write_frames_eq (writeOk : String → Bool) :
    ∀ l : List String,
      write_frames writeOk l = (l.takeWhile writeOk, !l.all writeOk) := by
  intro l
  induction l with
  | nil => rfl
  | cons f fs ih =>
    rw [write_frames]
    by_cases hf : writeOk f = true
    · rw [if_pos hf, ih]
      simp [List.takeWhile_cons, hf]
    · rw [if_neg hf]
      simp only [Bool.not_eq_true] at hf
      simp [List.takeWhile_cons, hf]

/-- A suffix of `a ++ b` that is no longer than `b` is a suffix of `b`. -/
theorem suffix_of_append_right (l a b : List Char)
    (hlen : l.length ≤ b.length) (h : l <:+ a ++ b) : l <:+ b := by
  obtain ⟨t, ht⟩ := h
  have hlt : a.length ≤ t.length := by
    have hl := congrArg List.length ht
    simp only [List.length_append] at hl
    omega
  refine ⟨t.drop a.length, ?_⟩
  have h2 : (t ++ l).drop a.length = (a ++ b).drop a.length := by rw [ht]
  rw [List.drop_append_of_le_length hlt, List.drop_left] at h2
  exact h2

/-- The video file `<stem>_timelapse.mp4` / `<stem>_timelapse.avi` never
ends in `".jpg"` or `".png"`, whatever the stem: it is never enumerated as
an image file. -/
theorem video_filename_not_image (stem fmt tail : String)
    (hfmt : fmt = "jpg" ∨ fmt = "png")
    (htail : tail = "_timelapse.mp4" ∨ tail = "_timelapse.avi") :
    strEndsWith (stem ++ tail) ("." ++ fmt) = false := by
  unfold strEndsWith
  rw [Bool.eq_false_iff]
  intro hsuf
  rw [List.isSuffixOf_iff_suffix, String.data_append] at hsuf
  have hlen : ("." ++ fmt).data.length ≤ tail.data.length := by
    rcases hfmt with h | h <;> rcases htail with h2 | h2 <;>
      rw [h, h2] <;> decide
  have hs := suffix_of_append_right _ _ _ hlen hsuf
  rcases hfmt with h | h <;> rcases htail with h2 | h2 <;>
    rw [h, h2] at hs <;> revert hs <;> decide

/-- The command-line video filename is the stem followed by
`_timelapse.mp4` or `_timelapse.avi`. -/
theorem cli_video_filename_shape (cfg : Config) :
    cli_video_filename cfg = cfg.filename_stem ++ "_timelapse.mp4" ∨
      cli_video_filename cfg = cfg.filename_stem ++ "_timelapse.avi" := by
  unfold cli_video_filename
  split
  · exact Or.inl rfl
  · split
    · exact Or.inr rfl
    · exact Or.inl rfl

/-- The GUI video filename is the stem followed by `_timelapse.mp4` or
`_timelapse.avi`. -/
theorem gui_video_filename_shape (cfg : Config) :
    gui_video_filename cfg = cfg.filename_stem ++ "_timelapse.mp4" ∨
      gui_video_filename cfg = cfg.filename_stem ++ "_timelapse.avi" := by
  unfold gui_video_filename
  split
  · exact Or.inl rfl
  · exact Or.inr rfl

/-- The shared behavior of `create_video_core`: the written frames are the
longest all-successful prefix of the enumeration; an error is logged
exactly when the enumeration was nonempty and some frame failed; and an
error skips the cleanup entirely — every pre-existing file is still in the
directory, which holds nothing except those files and possibly the video
file (present only when the writer was created before the failure). -/
theorem create_video_core_spec (image_format video_filename : String)
    (cleanup : Bool) (listing : List String) (writeOk : String → Bool) :
    (create_video_core image_format video_filename cleanup listing
        writeOk).written =
      (image_file_enumeration image_format listing).takeWhile writeOk ∧
    ((create_video_core image_format video_filename cleanup listing
        writeOk).errorLogged = true ↔
      image_file_enumeration image_format listing ≠ [] ∧
        ¬ (image_file_enumeration image_format listing).all writeOk = true) ∧
    ((create_video_core image_format video_filename cleanup listing
        writeOk).errorLogged = true →
      (∀ f ∈ listing,
        f ∈ (create_video_core image_format video_filename cleanup listing
          writeOk).finalListing) ∧
      (∀ f ∈ (create_video_core image_format video_filename cleanup listing
          writeOk).finalListing, f ∈ listing ∨ f = video_filename)) := by
  unfold create_video_core
  cases hmatch : image_file_enumeration image_format listing with
  | nil => simp
  | cons first rest =>
    dsimp only
    by_cases hfirst : writeOk first = false
    · rw [if_pos hfirst]
      refine ⟨?_, ?_, fun _ => ⟨fun f hf => hf, fun f hf => Or.inl hf⟩⟩
      · dsimp only
        rw [List.takeWhile_cons, if_neg (by simp [hfirst])]
      · dsimp only
        simp [List.all_cons, hfirst]
    · rw [if_neg hfirst]
      rw [write_frames_eq]
      by_cases hall : (first :: rest).all writeOk = true
      · rw [hall]
        dsimp only
        exact ⟨rfl, by simp [hall], by simp⟩
      · have hall' : (first :: rest).all writeOk = false := by
          revert hall
          cases (first :: rest).all writeOk <;> simp
        rw [hall']
        dsimp only
        refine ⟨rfl, by simp [hall'], fun _ => ⟨?_, ?_⟩⟩
        · intro f hf
          exact List.mem_append_left _ hf
        · intro f hf
          rcases List.mem_append.1 hf with h | h
          · exact Or.inl h
          · simp only [List.mem_singleton] at h
            exact Or.inr h

/-- C4: video assembly enumerates exactly the listing entries whose names
end in the configured image extension, sorted by filename; it writes them
one by one, in that sorted order, into the single video writer, stopping at
the first failure — the written frames are the longest all-successful prefix
of the enumeration, so no frame is retried and none is revisited; the
surrounding exception handler logs an error exactly when the enumeration was
nonempty and some frame failed, and in that case nothing further happens: no
cleanup occurs, every pre-existing file stays in the directory, and nothing
beyond possibly the video container (created with the writer, before the
failing frame) was added.  The GUI variant behaves identically. -/
theorem C4_create_video (cfg : Config) (listing : List String)
    (writeOk : String → Bool) :
    (image_file_enumeration cfg.image_format listing).Perm
        (listing.filter (fun f => strEndsWith f ("." ++ cfg.image_format))) ∧
    List.Sorted (· ≤ ·) (image_file_enumeration cfg.image_format listing) ∧
    (create_video cfg listing writeOk).written =
        (image_file_enumeration cfg.image_format listing).takeWhile writeOk ∧
    ((create_video cfg listing writeOk).errorLogged = true ↔
        image_file_enumeration cfg.image_format listing ≠ [] ∧
          ¬ (image_file_enumeration cfg.image_format listing).all writeOk = true) ∧
    ((create_video cfg listing writeOk).errorLogged = true →
        (∀ f ∈ listing, f ∈ (create_video cfg listing writeOk).finalListing) ∧
        (∀ f ∈ (create_video cfg listing writeOk).finalListing,
          f ∈ listing ∨ f = cli_video_filename cfg)) ∧
    (gui_create_video cfg listing writeOk).written =
        (image_file_enumeration cfg.image_format listing).takeWhile writeOk ∧
    ((gui_create_video cfg listing writeOk).errorLogged = true →
        (∀ f ∈ listing,
          f ∈ (gui_create_video cfg listing writeOk).finalListing) ∧
        (∀ f ∈ (gui_create_video cfg listing writeOk).finalListing,
          f ∈ listing ∨ f = gui_video_filename cfg)) := by
  obtain ⟨c1, c2, c3⟩ := create_video_core_spec cfg.image_format
    (cli_video_filename cfg) cfg.cleanup_images listing writeOk
  obtain ⟨g1, g2, g3⟩ := create_video_core_spec cfg.image_format
    (gui_video_filename cfg) cfg.cleanup_images listing writeOk
  exact ⟨List.mergeSort_perm _ _, List.sorted_mergeSort' _, c1, c2, c3, g1, g3⟩

/-- Witness-style sanity check for `C4_create_video` (its statement carries
implications): on a concrete directory the written frames stop at the first
failing file. -/
theorem C4_witness :
    (create_video load_default_config
        ["timelapse_000001.jpg", "config.json", "timelapse_000000.jpg"]
        (fun f => !(f = "timelapse_000001.jpg"))).written =
      (image_file_enumeration "jpg"
        ["timelapse_000001.jpg", "config.json", "timelapse_000000.jpg"]).takeWhile
        (fun f => !(f = "timelapse_000001.jpg")) :=
  (C4_create_video load_default_config
      ["timelapse_000001.jpg", "config.json", "timelapse_000000.jpg"]
      (fun f => !(f = "timelapse_000001.jpg"))).2.2.1

/-- On a successful cleanup run, `create_video_core` removes exactly the
enumerated files and adds the video file. -/
theorem create_video_core_cleanup (image_format video_filename : String)
    (listing : List String) (writeOk : String → Bool)
    (hok : (image_file_enumeration image_format listing).all writeOk = true)
    (hne : image_file_enumeration image_format listing ≠ []) :
    (create_video_core image_format video_filename true listing writeOk).finalListing =
      (listing.filter
        (fun f => f ∉ image_file_enumeration image_format listing))
        ++ [video_filename] := by
  unfold create_video_core
  cases hmatch : image_file_enumeration image_format listing with
  | nil => exact absurd hmatch hne
  | cons first rest =>
    dsimp only
    rw [hmatch] at hok
    have hfirst : writeOk first = true := by
      rw [List.all_cons, Bool.and_eq_true] at hok
      exact hok.1
    rw [if_neg (by simp [hfirst])]
    rw [write_frames_eq, hok]
    simp

/-- C10: with `cleanup_images` enabled and video assembly completing
successfully (a nonempty enumeration, every frame written), exactly the
enumerated image files disappear from the output directory: a file is in
the final directory contents iff it is a pre-existing file not ending in
the image extension, or it is the newly created video file; in particular
every enumerated file is gone while the video file and a saved
`config.json` remain.  The same holds for the GUI variant. -/
theorem C10_cleanup (cfg : Config) (listing : List String)
    (writeOk : String → Bool) (hclean : cfg.cleanup_images = true)
    (hfmt : cfg.image_format = "jpg" ∨ cfg.image_format = "png")
    (hok : (image_file_enumeration cfg.image_format listing).all writeOk = true)
    (hne : image_file_enumeration cfg.image_format listing ≠ []) :
    (∀ f, f ∈ (create_video cfg listing writeOk).finalListing ↔
        ((f ∈ listing ∧ strEndsWith f ("." ++ cfg.image_format) = false) ∨
          f = cli_video_filename cfg)) ∧
    (∀ f ∈ image_file_enumeration cfg.image_format listing,
        f ∉ (create_video cfg listing writeOk).finalListing) ∧
    cli_video_filename cfg ∈ (create_video cfg listing writeOk).finalListing ∧
    ("config.json" ∈ listing →
        "config.json" ∈ (create_video cfg listing writeOk).finalListing) ∧
    (∀ f, f ∈ (gui_create_video cfg listing writeOk).finalListing ↔
        ((f ∈ listing ∧ strEndsWith f ("." ++ cfg.image_format) = false) ∨
          f = gui_video_filename cfg)) := by
  have hmem : ∀ f, f ∈ image_file_enumeration cfg.image_format listing ↔
      (f ∈ listing ∧ strEndsWith f ("." ++ cfg.image_format) = true) := by
    intro f
    unfold image_file_enumeration
    rw [List.mem_mergeSort, List.mem_filter]
  have hclishape := cli_video_filename_shape cfg
  have hclivid : strEndsWith (cli_video_filename cfg)
      ("." ++ cfg.image_format) = false := by
    rcases hclishape with h | h <;> rw [h] <;>
      exact video_filename_not_image _ _ _ hfmt (by simp)
  have hguishape := gui_video_filename_shape cfg
  have hguivid : strEndsWith (gui_video_filename cfg)
      ("." ++ cfg.image_format) = false := by
    rcases hguishape with h | h <;> rw [h] <;>
      exact video_filename_not_image _ _ _ hfmt (by simp)
  have hfinal : (create_video cfg listing writeOk).finalListing =
      (listing.filter
        (fun f => f ∉ image_file_enumeration cfg.image_format listing))
        ++ [cli_video_filename cfg] := by
    unfold create_video
    rw [hclean]
    exact create_video_core_cleanup _ _ _ _ hok hne
  have hfinalg : (gui_create_video cfg listing writeOk).finalListing =
      (listing.filter
        (fun f => f ∉ image_file_enumeration cfg.image_format listing))
        ++ [gui_video_filename cfg] := by
    unfold gui_create_video
    rw [hclean]
    exact create_video_core_cleanup _ _ _ _ hok hne
  have hiff : ∀ f, (f ∈ listing ∧
      f ∉ image_file_enumeration cfg.image_format listing) ↔
      (f ∈ listing ∧ strEndsWith f ("." ++ cfg.image_format) = false) := by
    intro f
    rw [hmem f]
    constructor
    · rintro ⟨hf, hnot⟩
      refine ⟨hf, ?_⟩
      rcases Bool.eq_false_or_eq_true (strEndsWith f ("." ++ cfg.image_format))
        with h | h
      · exact absurd ⟨hf, h⟩ hnot
      · exact h
    · rintro ⟨hf, hfalse⟩
      exact ⟨hf, fun hc => by rw [hfalse] at hc; exact Bool.false_ne_true hc.2⟩
  refine ⟨?_, ?_, ?_, ?_, ?_⟩
  · intro f
    rw [hfinal]
    simp only [List.mem_append, List.mem_filter, List.mem_singleton,
      decide_eq_true_eq]
    rw [hiff f]
  · intro f hf hmem2
    rw [hfinal] at hmem2
    simp only [List.mem_append, List.mem_filter, List.mem_singleton,
      decide_eq_true_eq] at hmem2
    rcases hmem2 with ⟨-, hnot⟩ | heq
    · exact hnot hf
    · rw [heq] at hf
      have htrue := ((hmem _).1 hf).2
      rw [hclivid] at htrue
      exact Bool.false_ne_true htrue
  · rw [hfinal]
    exact List.mem_append_right _ (List.mem_singleton_self _)
  · intro hcfgmem
    rw [hfinal]
    simp only [List.mem_append, List.mem_filter, decide_eq_true_eq,
      List.mem_singleton]
    left
    refine ⟨hcfgmem, ?_⟩
    intro hc
    have := ((hmem _).1 hc).2
    rcases hfmt with h | h <;> rw [h] at this <;> revert this <;> decide
  · intro f
    rw [hfinalg]
    simp only [List.mem_append, List.mem_filter, List.mem_singleton,
      decide_eq_true_eq]
    rw [hiff f]

unseal List.merge List.mergeSort in
/-- Witness for `C10_cleanup` on a concrete directory: after cleanup the
directory holds exactly `config.json` and the new video file. -/
theorem C10_witness :
    "config.json" ∈ (create_video
        { load_default_config with cleanup_images := true }
        ["timelapse_000000.jpg", "config.json"] (fun _ => true)).finalListing := by
  have h := (C10_cleanup { load_default_config with cleanup_images := true }
      ["timelapse_000000.jpg", "config.json"] (fun _ => true) rfl
      (Or.inl rfl) (by decide) (by decide)).2.2.2.1
  exact h (by decide)

/-! ## The shared capture algorithm (claim C5) -/

/-- Every operation of the command-line property-setting phase is a camera
property assignment, and the resolution is among them. -/
theorem init_camera_props_spec (cfg : Config) :
    (∀ op ∈ init_camera_props cfg, op.isSetProp = true) ∧
      init_camera_props cfg ≠ [] ∧
      CamOp.setProp "frame_width" ∈ init_camera_props cfg ∧
      CamOp.setProp "frame_height" ∈ init_camera_props cfg := by
  refine ⟨?_, by simp [init_camera_props], by simp [init_camera_props],
    by simp [init_camera_props]⟩
  have hall : (init_camera_props cfg).all CamOp.isSetProp = true := by
    unfold init_camera_props
    by_cases h1 : cfg.auto_exposure = true <;>
      by_cases h2 : cfg.brightness = 0 <;>
        by_cases h3 : cfg.contrast = 0 <;>
          by_cases h4 : cfg.saturation = 0 <;>
            simp [h1, h2, h3, h4, CamOp.isSetProp]
  intro op hop
  exact List.all_eq_true.1 hall op hop

/-- Every operation of the GUI property-setting phase is a camera property
assignment, and the resolution is among them. -/
theorem gui_camera_props_spec (cfg : Config) :
    (∀ op ∈ gui_camera_props cfg, op.isSetProp = true) ∧
      gui_camera_props cfg ≠ [] ∧
      CamOp.setProp "frame_width" ∈ gui_camera_props cfg ∧
      CamOp.setProp "frame_height" ∈ gui_camera_props cfg := by
  refine ⟨?_, by simp [gui_camera_props], by simp [gui_camera_props],
    by simp [gui_camera_props]⟩
  have hall : (gui_camera_props cfg).all CamOp.isSetProp = true := by
    unfold gui_camera_props
    by_cases h1 : cfg.auto_exposure = true <;>
      simp [h1, CamOp.isSetProp]
  intro op hop
  exact List.all_eq_true.1 hall op hop

/-- Below a bound that caps the range, the conditional sleep of the test
loop is always taken, so its iterations are full `read, write, sleep`
blocks. -/
theorem flatMap_iterOps (m k : Nat) (hk : m ≤ k) :
    (List.range m).flatMap
        (fun i => [CamOp.readFrame, CamOp.writeImage] ++
          (if i < k then [CamOp.sleep] else [])) =
      (List.range m).flatMap (fun _ => iterOps) := by
  induction m with
  | zero => rfl
  | succ p ih =>
    rw [List.range_succ, List.flatMap_append, List.flatMap_append,
      ih (by omega)]
    congr 1
    simp [iterOps, show p < k from by omega]

/-- The operation trace of the smoke test is the spec's iteration blocks
with the final sleep dropped — and no property-setting phase, no encode. -/
theorem test_program_eq (n : Nat) :
    test_program n = CamOp.openDevice ::
      ((List.range n).flatMap (fun _ => iterOps)).dropLast := by
  cases n with
  | zero => rfl
  | succ m =>
    have hR : ((List.range (m + 1)).flatMap (fun _ => iterOps)).dropLast =
        (List.range m).flatMap (fun _ => iterOps) ++
          [CamOp.readFrame, CamOp.writeImage] := by
      rw [List.range_succ, List.flatMap_append]
      have : (List.range m).flatMap (fun _ => iterOps) ++
          [m].flatMap (fun _ => iterOps) =
          ((List.range m).flatMap (fun _ => iterOps) ++
            [CamOp.readFrame, CamOp.writeImage]) ++ [CamOp.sleep] := by
        simp [iterOps]
      rw [this, List.dropLast_concat]
    rw [hR]
    unfold test_program
    congr 1
    simp only [Nat.add_sub_cancel]
    rw [List.range_succ, List.flatMap_append, flatMap_iterOps m m (Nat.le_refl m)]
    simp

/-- C5 (counterexample): the smoke-test front-end does not follow the spec's
shared capture algorithm: its operation trace contains no camera-property
assignment at all, while the algorithm's property-setting phase must set the
resolution. -/
theorem C5_counterexample : ¬ followsSpecAlgorithm (test_program 5) := by
  rintro ⟨props, n, encode, heq, hne, hall, hw, hh⟩
  have hmem : CamOp.setProp "frame_width" ∈ test_program 5 := by
    rw [heq]
    exact List.mem_cons_of_mem _
      (List.mem_append_left _ (List.mem_append_left _ hw))
  exact absurd hmem (by decide)

/-- C5 (amended): the command-line and GUI front-ends follow the spec's
shared algorithm — open the device, set camera properties (always including
the resolution), repeat `read frame, write image, sleep`, then encode a
video exactly when configured and frames exist.  The smoke-test front-end
deviates: it opens the device and runs the same read/write/sleep iteration
blocks (omitting only the sleep after the final frame), but sets no camera
property and never encodes a video. -/
theorem C5_capture_algorithm (cfg : Config) (n : Nat) :
    followsSpecAlgorithm (cli_program cfg n) ∧
      followsSpecAlgorithm (gui_program cfg n) ∧
      test_program n = CamOp.openDevice ::
        ((List.range n).flatMap (fun _ => iterOps)).dropLast := by
  obtain ⟨h1, h2, h3, h4⟩ := init_camera_props_spec cfg
  obtain ⟨g1, g2, g3, g4⟩ := gui_camera_props_spec cfg
  exact ⟨⟨init_camera_props cfg, n, cfg.create_video && decide (0 < n),
      rfl, h2, h1, h3, h4⟩,
    ⟨gui_camera_props cfg, n, cfg.create_video && decide (0 < n),
      rfl, g2, g1, g3, g4⟩,
    test_program_eq n⟩

/-! ## File and directory naming (claim C6) -/

/-- The files saved by the smoke-test loop, in order: `frame_{j+1:03d}.jpg`
for each index `j` in the traversed range whose read and write succeeded. -/
theorem test_loop_files (readOk writeOk : Nat → Bool) :
    ∀ (remaining i : Nat) (acc : List String),
      (test_loop readOk writeOk remaining i acc).1 =
        acc ++ ((List.range' i remaining).filter
          (fun j => readOk j && writeOk j)).map test_frame_filename := by
  intro remaining
  induction remaining with
  | zero => intro i acc; simp [test_loop]
  | succ p ih =>
    intro i acc
    rw [test_loop, ih, List.range'_succ]
    by_cases h : (readOk i && writeOk i) = true
    · simp [h, List.filter_cons]
    · simp [h, List.filter_cons]

/-- C6 (counterexample): a file saved by the smoke-test capture session is
not named `<filename_...>_<6-digit frame number>.<format>` for the prefix of
its own session directory: the session directory is
`./test_output/timelapse_test_<timestamp>` (prefix `timelapse_test`), so a
file of the claimed shape would start with `timelapse_test` followed by an
underscore, yet the first saved file is `frame_001.jpg`, which does not —
and its frame-number field is 3 digits wide, not 6. -/
theorem C6_counterexample :
    test_output_directory ⟨2025, 1, 2, 3, 4, 5⟩ =
        "./test_output/timelapse_test_20250102_030405" ∧
      test_frame_filename 0 = "frame_001.jpg" ∧
      strStartsWith (test_frame_filename 0) ("timelapse_test" ++ "_") = false ∧
      (pad 3 (0 + 1)).length = 3 := by decide

/-- C6 (amended): a command-line or GUI capture session writes into the
fresh directory `<output_dir>/<prefix>_<YYYYMMDD_HHMMSS timestamp>`; every
file the GUI session saves is, in order, exactly
`<prefix>_<6-digit zero-padded frame number>.<image_format>` for frame
numbers `0, 1, …`, and every file the command-line session saves is
`<prefix>_<6-digit zero-padded k>.<image_format>` where `k` is the frame
counter at save time, a non-decreasing sequence bounded by the final
counter (`0, 1, …` exactly, unless an exception follows a successful write);
the smoke-test session instead writes into
`./test_output/timelapse_test_<timestamp>` and names its files
`frame_<3-digit 1-based index>.jpg`. -/
theorem C6_file_naming (cfg : Config) (t : Timestamp)
    (inputs : Nat → IterInput) (now : Nat → Nat) (end_time : Nat)
    (guiEnd : Option Nat) (fuel : Nat) (readOk writeOk : Nat → Bool)
    (n : Nat) :
    create_output_directory cfg t =
        cfg.output_dir ++ "/" ++
          (cfg.filename_stem ++ "_" ++ strftime_Ymd_HMS t) ∧
      gui_output_directory cfg t =
        cfg.output_dir ++ "/" ++
          (cfg.filename_stem ++ "_" ++ strftime_Ymd_HMS t) ∧
      (∀ name ∈ ((start_recording_loop cfg inputs now end_time fuel
            initialSessionState).1).saved_frames.map (cli_frame_filename cfg),
        ∃ k, k ≤ ((start_recording_loop cfg inputs now end_time fuel
            initialSessionState).1).frame_count ∧
          name = cfg.filename_stem ++ "_" ++ pad 6 k ++ "." ++
            cfg.image_format) ∧
      ((start_recording_loop cfg inputs now end_time fuel
          initialSessionState).1).saved_frames.Pairwise (· ≤ ·) ∧
      ((recording_worker_loop inputs now guiEnd fuel
            initialSessionState).1).saved_frames.map (gui_frame_filename cfg) =
        (List.range ((recording_worker_loop inputs now guiEnd fuel
            initialSessionState).1).frame_count).map
          (fun k => cfg.filename_stem ++ "_" ++ pad 6 k ++ "." ++
            cfg.image_format) ∧
      test_output_directory t =
        "./test_output/" ++ "timelapse_test" ++ "_" ++ strftime_Ymd_HMS t ∧
      (test_short_timelapse readOk writeOk n).1 =
        ((List.range n).filter (fun j => readOk j && writeOk j)).map
          (fun j => "frame_" ++ pad 3 (j + 1) ++ ".jpg") := by
  have hmono := start_recording_loop_monotone cfg inputs now end_time fuel
    initialSessionState (by simp [initialSessionState])
    (by simp [initialSessionState])
  refine ⟨rfl, rfl, ?_, hmono.2, ?_, ?_, ?_⟩
  · intro name hname
    rw [List.mem_map] at hname
    obtain ⟨k, hk, rfl⟩ := hname
    exact ⟨k, hmono.1 k hk, rfl⟩
  · rw [recording_worker_loop_saved inputs now guiEnd fuel
      initialSessionState (by simp [initialSessionState])]
    rfl
  · unfold test_output_directory
    rw [show "./test_output/" ++ "timelapse_test" ++ "_" =
      "./test_output/timelapse_test_" from by decide]
  · unfold test_short_timelapse
    rw [test_loop_files, List.range_eq_range']
    rfl

end Timelapse
